import Mathlib

/-!
Verification of the edalize `nextpnr` / `symbiflow` backends.

This file gives a shallow embedding, translated line by line from
`edalize/nextpnr.py` and `edalize/symbiflow.py`, of:

* the file-role classification loop of `Nextpnr.configure_main`;
* the full `Nextpnr.configure_main` configuration flow;
* `Symbiflow.configure_nextpnr`, `Symbiflow.configure_vpr` and
  `Symbiflow.configure_main`.

Python exceptions are modelled with `Except PyErr`; `logger.error` calls are
modelled as an accumulated log (they do not abort execution); Python `None`
is modelled with `Option`.  The external `EdaCommands` helper class
(`edalize/utils.py`, which is not part of the analysed sources) is modelled
from the specification of the command-graph builder.
-/

namespace Edalize

/-- Python truthiness of an optional string: `None` and `""` are falsy. -/
def truthy : Option String → Bool
  | none => false
  | some s => s ≠ ""

/-- Python `str()` of an optional string, as used by `"%s" % x` and
`"{}".format(x)`: `None` prints as `"None"`. -/
def pyStr : Option String → String
  | none => "None"
  | some s => s

/-- Python substring containment `sub in s`. -/
def pyIn (sub s : String) : Bool :=
  (List.range (s.length + 1)).any (fun i => sub.toList.isPrefixOf (s.toList.drop i))

/-- Python `s.split(sep)[0]`: the prefix of `s` up to the first occurrence
of the separator character (`sep` is used as a single character here, which
is the only way the sources use it: `package.split("-")[0]`). -/
def pySplitHead (s : String) (sep : Char) : String :=
  ((s.toList.splitOn sep).headD []).asString

/-- Decidable equality of `Except` values, needed to evaluate the model's
results on concrete inputs. -/
instance {ε α : Type} [DecidableEq ε] [DecidableEq α] :
    DecidableEq (Except ε α) := fun x y =>
  match x, y with
  | .ok a, .ok b =>
    if h : a = b then isTrue (by rw [h]) else isFalse (by simp [h])
  | .error a, .error b =>
    if h : a = b then isTrue (by rw [h]) else isFalse (by simp [h])
  | .ok _, .error _ => isFalse (by simp)
  | .error _, .ok _ => isFalse (by simp)

/-- An input file descriptor `{name, file_type}` as consumed by the
backends. -/
structure InputFile where
  name : String
  file_type : String
deriving DecidableEq, Repr

/-- The Python exceptions that the translated code can raise. -/
inductive PyErr where
  /-- `raise RuntimeError(msg)` -/
  | runtimeError (msg : String) : PyErr
  /-- an uncaught `TypeError` (`None` used in `+`, `in`, or `str.join`) -/
  | typeError : PyErr
  /-- an uncaught `NameError`: use of a never-assigned local variable -/
  | nameError (var : String) : PyErr
  /-- a failed `assert` statement -/
  | assertionError : PyErr
deriving DecidableEq, Repr

/-- One build rule: command tokens (a token is `none` when the Python code
put `None` in the list), output artifacts, and dependency inputs. -/
structure Stage where
  command : List (Option String)
  targets : List String
  depends : List String
deriving DecidableEq, Repr

/-- Modelled from the spec: the `EdaCommands` command-graph builder
(`edalize/utils.py`, not among the analysed source files).  It accumulates
stages, variable lines and header text in insertion order, records a default
target (falling back to the last stage's first output when never set), and
serializes deterministically.  Joining a command that contains a `None`
token fails with a `TypeError`, as Python's `str.join` does. -/
structure EdaCommands where
  commands : List Stage := []
  vars : List String := []
  header : String := ""
  default_target : Option String := none
deriving DecidableEq, Repr

/-- Modelled from the spec: `EdaCommands.add` registers one rule,
order-preserving. -/
def EdaCommands.add (c : EdaCommands) (command : List (Option String))
    (targets depends : List String) : EdaCommands :=
  { c with commands := c.commands ++ [⟨command, targets, depends⟩] }

/-- Modelled from the spec: `EdaCommands.add_var` appends a global
definition line. -/
def EdaCommands.add_var (c : EdaCommands) (v : String) : EdaCommands :=
  { c with vars := c.vars ++ [v] }

/-- Modelled from the spec: `EdaCommands.set_default_target`. -/
def EdaCommands.set_default_target (c : EdaCommands) (t : String) : EdaCommands :=
  { c with default_target := some t }

/-- A stage whose command list contains a Python `None` token. -/
def Stage.hasNoneToken (s : Stage) : Bool :=
  s.command.any (fun t => t.isNone)

/-- Modelled from the spec: deterministic rendering of one rule. -/
def Stage.render (s : Stage) : String :=
  String.intercalate " " s.targets ++ ": " ++ String.intercalate " " s.depends
    ++ "\n\t" ++ String.intercalate " " (s.command.map (fun t => t.getD ""))
    ++ "\n"

/-- Modelled from the spec: deterministic serialization — header block,
variable block, a default/"all" rule (falling back to the last stage's
first output when no default target was recorded), one rule per stage in
insertion order, and a clean rule over all known outputs. -/
def EdaCommands.serialize (c : EdaCommands) : String :=
  let dflt := c.default_target.getD
    (((c.commands.getLast?).map (fun s => s.targets.headD "")).getD "")
  c.header
    ++ String.intercalate "\n" c.vars ++ "\n"
    ++ "all: " ++ dflt ++ "\n"
    ++ String.join (c.commands.map Stage.render)
    ++ "clean:\n\trm -rf "
    ++ String.intercalate " " (c.commands.foldl (fun a s => a ++ s.targets) [])
    ++ "\n"

/-- Modelled from the spec: `EdaCommands.write` serializes the accumulated
graph and writes it verbatim; joining a command containing a `None` token
raises `TypeError` (Python `str.join` on a non-string). -/
def EdaCommands.write (c : EdaCommands) : Except PyErr String :=
  if c.commands.any Stage.hasNoneToken then .error .typeError
  else .ok c.serialize

/-! ## `Nextpnr.configure_main` (`edalize/nextpnr.py`)

The classification loop of lines 46-124 keeps one slot per recognized role
plus the `unused_files` bucket.  The translation mirrors the source's
statement structure: the `CST`, `LPF` and `PDC` tests are independent `if`
statements, `PCF`/`XDC` form one `if`/`elif` chain, and
`QSF`/`jsonNetlist`/`fpgaInterchangeNetlist`/`else` form another — so the
trailing `else` (the `unused_files` append) is only skipped for the tags of
the last chain. -/

/-- The role slots of the classification loop in `Nextpnr.configure_main`
(empty string = unassigned, as in the Python source's `""` initialisers). -/
structure NpClass where
  cst_file : String := ""
  lpf_file : String := ""
  pcf_file : String := ""
  xdc_file : String := ""
  pdc_file : String := ""
  qsf_file : String := ""
  netlist : String := ""
  unused_files : List InputFile := []
deriving DecidableEq, Repr

/-- nextpnr.py lines 47-54: `if f["file_type"] == "CST": ...`. -/
def npStepCST (st : NpClass) (f : InputFile) : Except PyErr NpClass :=
  if f.file_type == "CST" then
    if st.cst_file ≠ "" then
      .error (.runtimeError ("Nextpnr only supports one CST file. Found "
        ++ st.cst_file ++ " and " ++ f.name))
    else .ok { st with cst_file := f.name }
  else .ok st

/-- nextpnr.py lines 55-62: `if f["file_type"] == "LPF": ...` — note the
source formats `pcf_file`, not `lpf_file`, into the duplicate message. -/
def npStepLPF (st : NpClass) (f : InputFile) : Except PyErr NpClass :=
  if f.file_type == "LPF" then
    if st.lpf_file ≠ "" then
      .error (.runtimeError ("Nextpnr only supports one LPF file. Found "
        ++ st.pcf_file ++ " and " ++ f.name))
    else .ok { st with lpf_file := f.name }
  else .ok st

/-- nextpnr.py lines 63-70: `if f["file_type"] == "PDC": ...`. -/
def npStepPDC (st : NpClass) (f : InputFile) : Except PyErr NpClass :=
  if f.file_type == "PDC" then
    if st.pdc_file ≠ "" then
      .error (.runtimeError ("Nextpnr only supports one PDC file. Found "
        ++ st.pdc_file ++ " and " ++ f.name))
    else .ok { st with pdc_file := f.name }
  else .ok st

/-- nextpnr.py lines 71-86: `if f["file_type"] == "PCF": ...
elif f["file_type"] == "XDC": ...`. -/
def npStepPCFXDC (st : NpClass) (f : InputFile) : Except PyErr NpClass :=
  if f.file_type == "PCF" then
    if st.pcf_file ≠ "" then
      .error (.runtimeError ("Nextpnr only supports one PCF file. Found "
        ++ st.pcf_file ++ " and " ++ f.name))
    else .ok { st with pcf_file := f.name }
  else if f.file_type == "XDC" then
    if st.xdc_file ≠ "" then
      .error (.runtimeError ("Nextpnr only supports one XDC file. Found "
        ++ st.xdc_file ++ " and " ++ f.name))
    else .ok { st with xdc_file := f.name }
  else .ok st

/-- nextpnr.py lines 87-124: `if f["file_type"] == "QSF": ...
elif "jsonNetlist" ... elif "fpgaInterchangeNetlist" ...
else: unused_files.append(f)` — only the tags of this final chain escape
the trailing `else`.  The `fpgaInterchangeNetlist` branch never assigns
`netlist`, exactly as the source does not. -/
def npStepTail (is_interchange : Bool) (st : NpClass) (f : InputFile) :
    Except PyErr NpClass :=
  if f.file_type == "QSF" then
    if st.qsf_file ≠ "" then
      .error (.runtimeError ("Nextpnr only supports one QSF file. Found "
        ++ st.qsf_file ++ " and " ++ f.name))
    else .ok { st with qsf_file := f.name }
  else if f.file_type == "jsonNetlist" then
    if st.netlist ≠ "" then
      .error (.runtimeError ("Nextpnr only supports one netlist. Found "
        ++ st.netlist ++ " and " ++ f.name))
    else if is_interchange then
      .error (.runtimeError
        ("Nextpnr-fpga_interchange requires fpga-interchange logical netlist instead of JSON, found"
          ++ f.name))
    else .ok { st with netlist := f.name }
  else if f.file_type == "fpgaInterchangeNetlist" then
    if st.netlist ≠ "" then
      .error (.runtimeError ("Nextpnr only supports one netlist. Found "
        ++ st.netlist ++ " and " ++ f.name))
    else if ¬ is_interchange then
      .error (.runtimeError
        ("Non-interchange variants of Nextpnr require JSON netlist, found"
          ++ f.name))
    else .ok st
  else
    .ok { st with unused_files := st.unused_files ++ [f] }

/-- One iteration of the `for f in self.files` loop of
`Nextpnr.configure_main` (nextpnr.py lines 46-124): the five statement
groups of the loop body run in sequence, each on the state left by the
previous one, and the first raised error aborts. -/
def npClassifyStep (is_interchange : Bool) (st : NpClass) (f : InputFile) :
    Except PyErr NpClass := do
  let st ← npStepCST st f
  let st ← npStepLPF st f
  let st ← npStepPDC st f
  let st ← npStepPCFXDC st f
  npStepTail is_interchange st f

/-- The whole classification loop of `Nextpnr.configure_main`, raising the
first error encountered, in input order. -/
def npClassifyList (is_interchange : Bool) : NpClass → List InputFile →
    Except PyErr NpClass
  | st, [] => .ok st
  | st, f :: fs =>
    match npClassifyStep is_interchange st f with
    | .error e => .error e
    | .ok st' => npClassifyList is_interchange st' fs

/-- The inputs of `Nextpnr.configure_main`: `self.name`,
`self.flow_config["arch"]`, the `tool_options` entries it reads, and
`self.files`. -/
structure NpInput where
  name : String
  arch : String
  chipdb : Option String := none
  device : Option String := none
  package : Option String := none
  nextpnr_options : List String := []
  files : List InputFile := []
deriving DecidableEq, Repr

/-- The state `Nextpnr.configure_main` leaves behind on success: the
re-emitted `edam["files"]` list, the registered stages, the default target
and the written Makefile text. -/
structure NpSuccess where
  edam_files : List InputFile
  commands : List Stage
  default_target : String
  makefile : String
deriving DecidableEq, Repr

/-- The per-architecture branch of `Nextpnr.configure_main` (nextpnr.py
lines 135-173), computing `(arch_options, targets, constraints, output)`;
any architecture outside the five named ones falls into the trailing `else`
(the ice40-style `.asc` flow). -/
def npArchBranch (inp : NpInput) (st : NpClass) :
    Except PyErr (List String × String × List String × List String) :=
  if inp.arch == "ecp5" then
    let targets := inp.name ++ ".config"
    .ok ([], targets, if st.lpf_file ≠ "" then ["--lpf", st.lpf_file] else [],
      ["--textcfg", targets])
  else if inp.arch == "mistral" then
    match inp.device with
    | none => .error (.runtimeError
        "Missing required option \x27device\x27 for nextpnr-mistral")
    | some device =>
      if device == "" then
        .error (.runtimeError
          "Missing required option \x27device\x27 for nextpnr-mistral")
      else
        let targets := inp.name ++ ".rbf"
        .ok (["--device", device], targets,
          if st.qsf_file ≠ "" then ["--qsf", st.qsf_file] else [],
          ["--rbf", targets])
  else if inp.arch == "nexus" then
    match inp.device with
    | none => .error (.runtimeError
        "Missing required option \x27device\x27 for nextpnr-nexus")
    | some device =>
      if device == "" then
        .error (.runtimeError
          "Missing required option \x27device\x27 for nextpnr-nexus")
      else
        let targets := inp.name ++ ".fasm"
        .ok (["--device", device], targets,
          if st.pdc_file ≠ "" then ["--pdc", st.pdc_file] else [],
          ["--fasm", targets])
  else if inp.arch == "gowin" then
    match inp.device with
    | none => .error (.runtimeError
        "Missing required option \x27device\x27 for nextpnr-gowin")
    | some device =>
      if device == "" then
        .error (.runtimeError
          "Missing required option \x27device\x27 for nextpnr-gowin")
      else
        let targets := inp.name ++ ".pack"
        .ok (["--device", device], targets,
          if st.cst_file ≠ "" then ["--cst", st.cst_file] else [],
          ["--write", targets])
  else if inp.arch == "fpga_interchange" then
    let targets := inp.name ++ ".phys"
    .ok ([], targets, ["--xdc", st.xdc_file], ["--phys", targets])
  else
    let targets := inp.name ++ ".asc"
    .ok ([], targets, if st.pcf_file ≠ "" then ["--pcf", st.pcf_file] else [],
      ["--asc", targets])

/-- `Nextpnr.configure_main` (nextpnr.py lines 27-195): the early chipdb
check, the classification loop, the `edam["files"]` re-emission, the
architecture branch, the command assembly and the two registered targets
(CLI and GUI), the default target, and the Makefile write. -/
def nextpnr_configure (inp : NpInput) : Except PyErr NpSuccess := do
  let is_interchange := inp.arch == "fpga_interchange"
  if is_interchange ∧ inp.chipdb = none then
    .error (.runtimeError "Nextpnr-fpga_interchange require chipdb to be specified.")
  else do
    let st ← npClassifyList is_interchange {} inp.files
    let edam_files := st.unused_files
      ++ [⟨inp.name ++ ".asc", "iceboxAscii"⟩]
    let (arch_options, targets, constraints, output) ← npArchBranch inp st
    let depends := st.netlist
    let command := (["nextpnr-" ++ inp.arch, "-l", "next.log"]
      ++ arch_options ++ inp.nextpnr_options ++ constraints).map some
      ++ (if is_interchange then
            [some "--netlist", some depends, some "--chipdb", inp.chipdb]
          else [some "--json", some depends])
      ++ (match inp.package with
          | some p => [some "--package", some p]
          | none => [])
      ++ output.map some
    let commands := EdaCommands.add {} command [targets] [depends]
    let commands := commands.add (command ++ [some "--gui"]) ["build-gui"] [depends]
    let commands := commands.set_default_target targets
    let makefile ← commands.write
    pure ⟨edam_files, commands.commands, targets, makefile⟩

/-! ## `Symbiflow` (`edalize/symbiflow.py`)

`logger.error` never aborts: it is modelled as an accumulated list of
messages, returned alongside the `Except` result.  Python locals that may
stay unassigned are modelled as `Option String`, and their first use when
unassigned raises `NameError`; `None` used in string concatenation or `in`
raises `TypeError`. -/

/-- The `tool_options` entries read by the `Symbiflow` backend. -/
structure SymOpts where
  arch : Option String := none
  package : Option String := none
  part : Option String := none
  vendor : Option String := none
  pnr : Option String := none
  nextpnr_options : Option String := none
  vpr_options : Option String := none
  fasm2bels : Bool := false
  dbroot : Option String := none
  schema_dir : Option String := none
deriving DecidableEq, Repr

/-- What a successful `Symbiflow` configure run leaves behind: the
registered stages, the recorded default target, and the written Makefile
text. -/
structure SymSuccess where
  commands : List Stage
  default_target : Option String
  makefile : String
deriving DecidableEq, Repr

/-- The final `commands.write(...)` step shared by both Symbiflow configure
paths. -/
def symFinishWrite (cmds : EdaCommands) : Except PyErr SymSuccess :=
  match cmds.write with
  | .error e => .error e
  | .ok text => .ok ⟨cmds.commands, cmds.default_target, text⟩

/-- The message of symbiflow.py lines 312-313 and 427-428 / 450-451. -/
def fasm2belsMissingMsg : String :=
  "When using fasm2bels, rr_graph, vpr_grid and database root must be provided"

/-- The file-scan state of `Symbiflow.configure_nextpnr` (symbiflow.py
lines 174-196): singular slots are silently overwritten (last file wins),
only the `xdc` role is a collection. -/
structure SymNpScan where
  chipdb : Option String := none
  device : Option String := none
  rr_graph : Option String := none
  vpr_grid : Option String := none
  vpr_capnp_schema : Option String := none
  placement_constraints : List String := []
deriving DecidableEq, Repr

/-- One iteration of the `for f in src_files` loop of
`Symbiflow.configure_nextpnr` (lines 182-196). -/
def symNpScanStep (st : SymNpScan) (f : InputFile) : SymNpScan :=
  if f.file_type == "bba" then { st with chipdb := some f.name }
  else if f.file_type == "device" then { st with device := some f.name }
  else if f.file_type == "xdc" then
    { st with placement_constraints := st.placement_constraints ++ [f.name] }
  else if f.file_type == "RRGraph" then { st with rr_graph := some f.name }
  else if f.file_type == "VPRGrid" then { st with vpr_grid := some f.name }
  else if f.file_type == "capnp" then { st with vpr_capnp_schema := some f.name }
  else st

/-- The whole scan loop of `Symbiflow.configure_nextpnr`. -/
def symNpScanList : SymNpScan → List InputFile → SymNpScan
  | st, [] => st
  | st, f :: fs => symNpScanList (symNpScanStep st f) fs

/-- Scan starting from the all-unassigned state of lines 174-179. -/
def symNpScan (src : List InputFile) : SymNpScan := symNpScanList {} src

/-- The `logger.error` messages of symbiflow.py lines 147-159: invalid
`arch` (the legal values are `xilinx` and `fpga_interchange`), missing
`package`, missing `part`. -/
def symNpLog1 (o : SymOpts) : List String :=
  (if o.arch == some "xilinx" ∨ o.arch == some "fpga_interchange" then []
   else ["Missing or invalid \x22arch\x22 parameter: " ++ pyStr o.arch
     ++ " in \x22tool_options\x22"])
  ++ (if truthy o.package then [] else ["Missing required \x22package\x22 parameter"])
  ++ (if truthy o.part then [] else ["Missing required \x22part\x22 parameter"])

/-- The `logger.error` of symbiflow.py lines 167-172: no known family found
in `part` while targeting `fpga_interchange`. -/
def symNpLog2 (o : SymOpts) (target_family : Option String) (part : String) :
    List String :=
  if target_family = none ∧ o.arch == some "fpga_interchange" then
    ["Couldn\x27t find family for part: " ++ part ++ ". Available families: xc7"]
  else []

/-- The `logger.error` messages of symbiflow.py lines 198-205: missing
chipdb file, missing XDC file(s), missing `.device` file under
`fpga_interchange`. -/
def symNpLog3 (o : SymOpts) (scan : SymNpScan) : List String :=
  (if truthy scan.chipdb then [] else ["Missing required chipdb file"])
  ++ (if scan.placement_constraints = [] then ["Missing required XDC file(s)"] else [])
  ++ (if scan.device = none ∧ o.arch == some "fpga_interchange" then
        ["Missing required \x22.device\x22 file for \x22fpga_interchange\x22 arch"]
      else [])

/-- The five stages registered by the `fpga_interchange` branch of
`Symbiflow.configure_nextpnr` (symbiflow.py lines 238-290), together with
the environment-guard header lines. -/
def symNpInterchangeStages (name toplevel : String)
    (schema_dir device chipdb package_ic : Option String)
    (xdcs : List String) (nextpnr_options : String) (cmds : EdaCommands) :
    EdaCommands :=
  let schemaTok := schema_dir.getD "$(INTERCHANGE_SCHEMA_PATH)"
  let cmds := { cmds with header := cmds.header
    ++ (if schema_dir = none then
          "ifndef INTERCHANGE_SCHEMA_PATH\n$(error Environment variable INTERCHANGE_SCHEMA_PATH was not found. It should be set to <fpga-interchange-schema path>/interchange)\nendif\n"
        else "")
    ++ "ifndef RAPIDWRIGHT_PATH\n$(error Environment variable RAPIDWRIGHT_PATH was not found. It should be set to <rapid wright path>)\nendif\n" }
  let cmds := cmds.add
    [some "python", some "-m", some "fpga_interchange.yosys_json",
     some "--schema_dir", some schemaTok, some "--device", device,
     some "--top", some toplevel, some (name ++ ".json"), some (name ++ ".netlist")]
    [name ++ ".netlist"] [name ++ ".json"]
  let cmds := cmds.add
    ([some "nextpnr-fpga_interchange", some "--chipdb", chipdb,
      some "--package", package_ic] ++ xdcs.map some
      ++ [some "--netlist", some (name ++ ".netlist"),
          some "--write", some (name ++ ".routed.json"),
          some "--phys", some (name ++ ".phys"), some nextpnr_options])
    [name ++ ".phys"] [name ++ ".netlist"]
  let cmds := cmds.add
    [some "python", some "-m", some "fpga_interchange.fasm_generator",
     some "--schema_dir", some schemaTok, some "--family", some "xc7", device,
     some (name ++ ".netlist"), some (name ++ ".phys"), some (name ++ ".fasm")]
    [name ++ ".fasm"] [name ++ ".phys"]
  let cmds := cmds.add
    [some "RAPIDWRIGHT_PATH=$\x7bRAPIDWRIGHT_PATH\x7d $\x7bRAPIDWRIGHT_PATH\x7d/scripts/invoke_rapidwright.sh com.xilinx.rapidwright.interchange.PhysicalNetlistToDcp",
     some (name ++ ".netlist"), some (name ++ ".phys"), some (xdcs.getD 1 ""),
     some (name ++ ".dcp")]
    [name ++ ".dcp"] [name ++ ".fasm"]
  cmds.add [some "bash vivado.sh"] [name ++ ".timing"] [name ++ ".dcp"]

/-- The common tail of `Symbiflow.configure_nextpnr` (symbiflow.py lines
302-350): the bitstream stage — whose command reads the possibly
never-assigned local `bitstream_device`, raising `NameError` — the
optional fasm2bels sub-flow (whose missing inputs are only logged, after
which `dbroot + f"/{bitstream_device}"` raises `TypeError` when `dbroot`
is `None`), the default target, and the Makefile write. -/
def symNpCommon (o : SymOpts) (name toplevel partname : String)
    (bitstream_device : Option String) (scan : SymNpScan) (cmds : EdaCommands) :
    List String × Except PyErr SymSuccess :=
  match bitstream_device with
  | none => ([], .error (.nameError "bitstream_device"))
  | some bd =>
    let cmds := cmds.add
      [some "symbiflow_write_bitstream", some "-d", some bd,
       some "-f", some (name ++ ".fasm"), some "-p", some partname,
       some "-b", some (name ++ ".bit")]
      [name ++ ".bit"] [name ++ ".fasm"]
    if o.fasm2bels then
      let log := if scan.rr_graph = none ∨ scan.vpr_grid = none ∨ o.dbroot = none
        then [fasm2belsMissingMsg] else []
      match o.dbroot with
      | none => (log, .error .typeError)
      | some db =>
        let cmds := cmds.add
          [some "python -m fasm2bels", some "--db_root", some (db ++ "/" ++ bd),
           some "--part", some partname, some "--bitread bitread",
           some "--bit_file", some (toplevel ++ ".bit"),
           some "--fasm_file", some (toplevel ++ ".bit.fasm"),
           some "--connection_database channels.db",
           some "--rr_graph", scan.rr_graph,
           some "--route_file", some (toplevel ++ ".route"),
           some "--vpr_grid_map", scan.vpr_grid,
           some "--vpr_capnp_schema_dir", scan.vpr_capnp_schema,
           some "--verilog_file", some (toplevel ++ ".bit.v"),
           some "--xdc_file", some (toplevel ++ ".bit.xdc"),
           some "&& rm channels.db"]
          [toplevel ++ ".bit.v"] []
        let cmds := cmds.add [some "bash vivado.sh"] ["timing_summary.rpt"]
          [toplevel ++ ".bit.v"]
        (log, symFinishWrite (cmds.set_default_target "timing_summary.rpt"))
    else
      ([], symFinishWrite (cmds.set_default_target (name ++ ".bit")))

/-- `Symbiflow.configure_nextpnr` (symbiflow.py lines 114-350).  The Yosys
sub-configuration (lines 115-144) is external; the stages it registered
arrive through `yosysCmds` (taken over at line 227). -/
def sym_configure_nextpnr (o : SymOpts) (name toplevel : String)
    (src : List InputFile) (yosysCmds : List Stage) :
    List String × Except PyErr SymSuccess :=
  let log := symNpLog1 o
  match o.part with
  | none =>
    -- `for family in ...: if family in part` — `in None` raises TypeError
    (log, .error .typeError)
  | some part =>
    let target_family : Option String :=
      if pyIn "xc7" part then some "xc7" else none
    let log := log ++ symNpLog2 o target_family part
    let scan := symNpScan src
    let log := log ++ symNpLog3 o scan
    let nextpnr_options := o.nextpnr_options.getD ""
    match o.package with
    | none => (log, .error .typeError)  -- `partname = part + package`
    | some pkg =>
      let partname := part ++ pkg
      -- `package = package.split("-")[0] if arch == "fpga_interchange" else None`
      let package_ic : Option String :=
        if o.arch == some "fpga_interchange" then some (pySplitHead pkg '-') else none
      -- lines 212-217: three independent `if`s, no `else` — the local stays
      -- unassigned when no substring matches
      let bitstream_device : Option String := none
      let bitstream_device :=
        if pyIn "xc7a" part then some "artix7" else bitstream_device
      let bitstream_device :=
        if pyIn "xc7z" part then some "zynq7" else bitstream_device
      let bitstream_device :=
        if pyIn "xc7k" part then some "kintex7" else bitstream_device
      let xdcs := scan.placement_constraints.foldl (fun a x => a ++ ["--xdc", x]) []
      let cmds : EdaCommands := { commands := yosysCmds }
      if o.arch == some "fpga_interchange" then
        -- `assert len(xdcs) == 2, xdcs`
        if xdcs.length ≠ 2 then (log, .error .assertionError)
        else
          let cmds := symNpInterchangeStages name toplevel o.schema_dir
            scan.device scan.chipdb package_ic xdcs nextpnr_options cmds
          let (l2, r) := symNpCommon o name toplevel partname bitstream_device scan cmds
          (log ++ l2, r)
      else
        match o.arch with
        | none => (log, .error .typeError)  -- `"nextpnr-" + None`
        | some arch =>
          let cmds := cmds.add
            ([some ("nextpnr-" ++ arch), some "--chipdb", scan.chipdb]
              ++ xdcs.map some
              ++ [some "--json", some (name ++ ".json"),
                  some "--write", some (name ++ ".routed.json"),
                  some "--fasm", some (name ++ ".fasm"),
                  some "--log", some "nextpnr.log", some nextpnr_options])
            [name ++ ".fasm"] [name ++ ".json"]
          let (l2, r) := symNpCommon o name toplevel partname bitstream_device scan cmds
          (log ++ l2, r)

/-- The file-scan state of `Symbiflow.configure_vpr` (symbiflow.py lines
360-383): four collection roles and three singular slots that are silently
overwritten (last file wins). -/
structure SymVprScan where
  file_list : List String := []
  timing_constraints : List String := []
  pins_constraints : List String := []
  placement_constraints : List String := []
  rr_graph : Option String := none
  vpr_grid : Option String := none
  vpr_capnp_schema : Option String := none
deriving DecidableEq, Repr

/-- One iteration of the `for f in src_files` loop of
`Symbiflow.configure_vpr` (lines 369-383): seven independent `if`
statements on `f.file_type`. -/
def symVprScanStep (st : SymVprScan) (f : InputFile) : SymVprScan :=
  let st := if f.file_type == "verilogSource" then
    { st with file_list := st.file_list ++ [f.name] } else st
  let st := if f.file_type == "SDC" then
    { st with timing_constraints := st.timing_constraints ++ [f.name] } else st
  let st := if f.file_type == "PCF" then
    { st with pins_constraints := st.pins_constraints ++ [f.name] } else st
  let st := if f.file_type == "xdc" then
    { st with placement_constraints := st.placement_constraints ++ [f.name] } else st
  let st := if f.file_type == "RRGraph" then { st with rr_graph := some f.name } else st
  let st := if f.file_type == "VPRGrid" then { st with vpr_grid := some f.name } else st
  if f.file_type == "capnp" then { st with vpr_capnp_schema := some f.name } else st

/-- The whole scan loop of `Symbiflow.configure_vpr`. -/
def symVprScanList : SymVprScan → List InputFile → SymVprScan
  | st, [] => st
  | st, f :: fs => symVprScanList (symVprScanStep st f) fs

/-- Scan starting from the all-empty state of lines 360-367. -/
def symVprScan (src : List InputFile) : SymVprScan := symVprScanList {} src

/-- The `logger.error` of symbiflow.py lines 355-359: VHDL sources are
rejected (by log only). -/
def symVprLog1 (src : List InputFile) : List String :=
  if src.any (fun f => f.file_type == "vhdlSource")
      ∨ src.any (fun f => f.file_type == "vhdlSource-2008") then
    ["VHDL files are not supported in Yosys"]
  else []

/-- The `logger.error` messages of symbiflow.py lines 391-394: missing
`part`, missing `package` (in this order in `configure_vpr`). -/
def symVprLog2 (o : SymOpts) : List String :=
  (if truthy o.part then [] else ["Missing required \x22part\x22 parameter"])
  ++ (if truthy o.package then [] else ["Missing required \x22package\x22 parameter"])

/-- The `logger.error` of the two identical fasm2bels validation blocks
(symbiflow.py lines 426-428 and 449-451). -/
def symVprFasmLog (fasm2bels : Bool) (scan : SymVprScan) (dbroot : Option String) :
    List String :=
  if fasm2bels then
    if scan.rr_graph = none ∨ scan.vpr_grid = none ∨ dbroot = none then
      [fasm2belsMissingMsg]
    else []
  else []

/-- The values bound by the vendor branch of `Symbiflow.configure_vpr`
(symbiflow.py lines 396-414).  An outer `none` in `partname`,
`device_suffix` or `bitstream_device` means the local was never assigned
(its later use raises `NameError`); `partname`'s inner `Option` is the
Python value itself, which in the quicklogic branch is the raw `package`
option and may be `None`. -/
structure VprVendor where
  part : Option String
  partname : Option (Option String)
  device_suffix : Option String
  bitstream_device : Option String
deriving DecidableEq, Repr

/-- The vendor branch of `Symbiflow.configure_vpr` (lines 396-414):
`xilinx` derives `bitstream_device` from substrings of `part` (three
independent `if`s, possibly leaving it unassigned), concatenates
`partname`, and rewrites `xc7a35t` to `xc7a50t`; `quicklogic` uses
`package` as `partname`; any other vendor assigns nothing. -/
def symVprVendorBranch (vendor part package : Option String) :
    Except PyErr VprVendor :=
  if vendor == some "xilinx" then
    match part with
    | none => .error .typeError  -- `"xc7a" in None`
    | some p =>
      let bd : Option String := none
      let bd := if pyIn "xc7a" p then some "artix7" else bd
      let bd := if pyIn "xc7z" p then some "zynq7" else bd
      let bd := if pyIn "xc7k" p then some "kintex7" else bd
      match package with
      | none => .error .typeError  -- `partname = part + package`
      | some pkg =>
        let partname := p ++ pkg
        -- `if part == "xc7a35t": part = "xc7a50t"`
        let p := if p == "xc7a35t" then "xc7a50t" else p
        .ok ⟨some p, some (some partname), some "test", bd⟩
  else if vendor == some "quicklogic" then
    match part with
    | none => .error .typeError  -- `bitstream_device = part + "_" + device_suffix`
    | some p => .ok ⟨some p, some package, some "wlcsp", some (p ++ "_" ++ "wlcsp")⟩
  else
    .ok ⟨part, none, none, none⟩

/-- The quicklogic tail of `Symbiflow.configure_vpr` (symbiflow.py lines
547-588): four extra stages and a default target that is the space-joined
concatenation of three of their outputs; every other vendor records the
current `targets` value as default.  Both paths end in the Makefile write. -/
def symVprTail (o : SymOpts) (toplevel : String) (cmds : EdaCommands)
    (targets : String) : Except PyErr SymSuccess :=
  if o.vendor == some "quicklogic" then
    let cmds := cmds.add
      [some "symbiflow_write_binary", some (toplevel ++ ".bit"), some (toplevel ++ ".bin")]
      [toplevel ++ ".bin"] [toplevel ++ ".bit"]
    let cmds := cmds.add
      [some "symbiflow_write_bitheader", some (toplevel ++ ".bit"), some (toplevel ++ ".h")]
      [toplevel ++ ".h"] [toplevel ++ ".bit"]
    let cmds := cmds.add
      [some "symbiflow_write_openocd", some (toplevel ++ ".bit"),
       some (toplevel ++ ".openocd.cfg")]
      [toplevel ++ ".openocd.cfg"] [toplevel ++ ".bit"]
    let cmds := cmds.add
      [some "symbiflow_write_jlink", some (toplevel ++ ".bit"), some (toplevel ++ ".jlink")]
      [toplevel ++ ".jlink"] [toplevel ++ ".bit"]
    let cmds := cmds.set_default_target
      (toplevel ++ ".bin" ++ " " ++ toplevel ++ ".h" ++ " " ++ toplevel ++ ".openocd.cfg")
    symFinishWrite cmds
  else
    symFinishWrite (cmds.set_default_target targets)

/-- `Symbiflow.configure_vpr` (symbiflow.py lines 352-588). -/
def sym_configure_vpr (o : SymOpts) (toplevel : String) (src : List InputFile) :
    List String × Except PyErr SymSuccess :=
  let log := symVprLog1 src
  let scan := symVprScan src
  -- `builddir` (line 385) is read but never used afterwards
  let log := log ++ symVprLog2 o
  match symVprVendorBranch o.vendor o.part o.package with
  | .error e => (log, .error e)
  | .ok vv =>
    let _vo := o.vpr_options
    let vpr_options : List String :=
      if truthy _vo then ["--additional_vpr_options", "\x22" ++ _vo.getD "" ++ "\x22"]
      else []
    let pcf_opts := if scan.pins_constraints ≠ [] then "-p" :: scan.pins_constraints else []
    let sdc_opts := if scan.timing_constraints ≠ [] then "-s" :: scan.timing_constraints else []
    let xdc_opts := if scan.placement_constraints ≠ [] then "-x" :: scan.placement_constraints else []
    let fasm2bels := o.fasm2bels
    let dbroot := o.dbroot
    -- first fasm2bels validation block (lines 426-441); building
    -- `tcl_params` reads the local `partname`, unassigned for unknown vendors
    let log := log ++ symVprFasmLog fasm2bels scan dbroot
    if fasm2bels ∧ vv.partname = none then (log, .error (.nameError "partname"))
    else
    -- second, duplicated fasm2bels validation block (lines 445-464)
    let log := log ++ symVprFasmLog fasm2bels scan dbroot
    if fasm2bels ∧ vv.partname = none then (log, .error (.nameError "partname"))
    else
    let cmds : EdaCommands := {}
    let cmds := cmds.add_var ("export EDALIZE_VENDOR=" ++ pyStr o.vendor)
    let cmds := cmds.add_var ("export EDALIZE_PART=" ++ pyStr vv.part)
    -- synthesis stage (lines 475-484); its command reads `bitstream_device`
    -- then `partname`
    match vv.bitstream_device with
    | none => (log, .error (.nameError "bitstream_device"))
    | some bd =>
      match vv.partname with
      | none => (log, .error (.nameError "partname"))
      | some partname =>
        let cmds := cmds.add
          ([some "symbiflow_synth", some "-t", some toplevel, some "-v"]
            ++ scan.file_list.map some
            ++ [some "-d", some bd]
            ++ (if pcf_opts ≠ [] then pcf_opts.map some else [some "-p"])
            ++ [some "-P", partname]
            ++ (if o.vendor == some "quicklogic" ∧ scan.pins_constraints ≠ []
                then pcf_opts.map some else [])
            ++ xdc_opts.map some)
          [toplevel ++ ".eblif"] []
        -- P&R stages (lines 486-520); `device_opt` reads `part` and
        -- `device_suffix`
        match vv.part with
        | none => (log, .error .typeError)  -- `part + "_"` with `None`
        | some part =>
          match vv.device_suffix with
          | none => (log, .error (.nameError "device_suffix"))
          | some device_suffix =>
            let eblif_opt := [some "-e", some (toplevel ++ ".eblif")]
            let device_opt := [some "-d", some (part ++ "_" ++ device_suffix)]
            let cmds := cmds.add
              ([some "symbiflow_pack"] ++ eblif_opt ++ device_opt
                ++ sdc_opts.map some ++ vpr_options.map some)
              [toplevel ++ ".net"] [toplevel ++ ".eblif"]
            let cmds := cmds.add
              ([some "symbiflow_place"] ++ eblif_opt ++ device_opt
                ++ [some "-n", some (toplevel ++ ".net"), some "-P", partname]
                ++ sdc_opts.map some ++ pcf_opts.map some ++ vpr_options.map some)
              [toplevel ++ ".place"] [toplevel ++ ".net"]
            let cmds := cmds.add
              ([some "symbiflow_route"] ++ eblif_opt ++ device_opt
                ++ sdc_opts.map some ++ vpr_options.map some)
              [toplevel ++ ".route"] [toplevel ++ ".place"]
            let cmds := cmds.add
              ([some "symbiflow_write_fasm"] ++ eblif_opt ++ device_opt
                ++ sdc_opts.map some ++ vpr_options.map some)
              [toplevel ++ ".fasm"] [toplevel ++ ".route"]
            let cmds := cmds.add
              [some "symbiflow_write_bitstream", some "-d", some bd,
               some "-f", some (toplevel ++ ".fasm"),
               some (if o.vendor == some "xilinx" then "-p" else "-P"), partname,
               some "-b", some (toplevel ++ ".bit")]
              [toplevel ++ ".bit"] [toplevel ++ ".fasm"]
            -- optional fasm2bels sub-flow (lines 522-545)
            if fasm2bels then
              match dbroot with
              | none => (log, .error .typeError)  -- `dbroot + f"/{bitstream_device}"`
              | some db =>
                let cmds := cmds.add
                  ([some "python -m fasm2bels", some "--db_root", some (db ++ "/" ++ bd),
                    some "--part", partname, some "--bitread bitread",
                    some "--bit_file", some (toplevel ++ ".bit"),
                    some "--fasm_file", some (toplevel ++ ".bit.fasm"),
                    some "--eblif", some (toplevel ++ ".eblif"),
                    some "--connection_database channels.db",
                    some "--rr_graph", scan.rr_graph,
                    some "--route_file", some (toplevel ++ ".route"),
                    some "--vpr_grid_map", scan.vpr_grid,
                    some "--vpr_capnp_schema_dir", scan.vpr_capnp_schema]
                    ++ (if scan.pins_constraints.length > 0 then
                          [some ("--pcf " ++ String.intercalate " " scan.pins_constraints)]
                        else [])
                    ++ [some "--verilog_file", some (toplevel ++ ".bit.v"),
                        some "--xdc_file", some (toplevel ++ ".bit.xdc"),
                        some "&& rm channels.db"])
                  [toplevel ++ ".bit.v"] []
                let cmds := cmds.add [some "bash vivado.sh"] ["timing_summary.rpt"]
                  [toplevel ++ ".bit.v"]
                (log, symVprTail o toplevel cmds "timing_summary.rpt")
            else
              (log, symVprTail o toplevel cmds (toplevel ++ ".bit"))

/-- `Symbiflow.configure_main` (symbiflow.py lines 590-598): dispatch on
the `pnr` option; an unsupported value is only logged — the method returns
normally and no build file is written (`none`). -/
def sym_configure_main (o : SymOpts) (name toplevel : String)
    (src : List InputFile) (yosysCmds : List Stage) :
    List String × Except PyErr (Option SymSuccess) :=
  if o.pnr == some "nextpnr" then
    let (l, r) := sym_configure_nextpnr o name toplevel src yosysCmds
    (l, r.map some)
  else if o.pnr == some "vtr" ∨ o.pnr == some "vpr" then
    let (l, r) := sym_configure_vpr o toplevel src
    (l, r.map some)
  else
    (["Unsupported PnR tool: " ++ pyStr o.pnr], .ok none)

/-- The three file types that the trailing `else` of the classification
loop does not send to `unused_files` (they belong to the last `if`/`elif`
chain of nextpnr.py lines 87-124). -/
def npNotUnused (f : InputFile) : Prop :=
  f.file_type = "QSF" ∨ f.file_type = "jsonNetlist" ∨ f.file_type = "fpgaInterchangeNetlist"

instance (f : InputFile) : Decidable (npNotUnused f) := by
  unfold npNotUnused; infer_instance

/-- True when the recorded default target is not an output of any
registered stage. -/
def defaultOutsideStages (r : SymSuccess) : Bool :=
  match r.default_target with
  | none => false
  | some d => r.commands.all (fun s => !(s.targets.contains d))

/-- A default target that is the output of some single registered stage. -/
def isStageOutput (cs : List Stage) (t : String) : Prop :=
  ∃ s ∈ cs, t ∈ s.targets

/-- The duplicate-file message pattern of nextpnr.py (lines 49-53 and the
analogous branches): names the already-assigned file and the new one. -/
def npDupMsg (t n1 n2 : String) : String :=
  "Nextpnr only supports one " ++ t ++ " file. Found " ++ n1 ++ " and " ++ n2

/-- Concrete input for the C1 witness. -/
def w1Files : List InputFile := [⟨"a.cst", "CST"⟩, ⟨"x.bin", "binary"⟩]

/-- The classification state w1Files produces. -/
def w1St : NpClass :=
  { cst_file := "a.cst", unused_files := [⟨"a.cst", "CST"⟩, ⟨"x.bin", "binary"⟩] }


/-- The successful result of the nextpnr run with unknown arch
"notanarch", used by the C4 witness. -/
def wC4R : NpSuccess :=
  (nextpnr_configure { name := "top", arch := "notanarch" }).toOption.getD
    ⟨[], [], "", ""⟩


/-- Concrete input for the C8 witness: a JSON netlist supplied under the
fpga_interchange architecture. -/
def wC8a : NpInput :=
  { name := "top", arch := "fpga_interchange", chipdb := some "chip.bba",
    files := [⟨"n.json", "jsonNetlist"⟩] }

/-- Concrete input for the C8 witness: an fpga-interchange netlist
supplied under the ice40 (default) architecture. -/
def wC8b : NpInput :=
  { name := "top", arch := "ice40",
    files := [⟨"n.netlist", "fpgaInterchangeNetlist"⟩] }


/-- Concrete Symbiflow options for the C2 theorems: everything valid
except the architecture selector. -/
def wC2O : SymOpts :=
  { arch := some "bogus", package := some "clg400-1", part := some "xc7a50t" }

/-- Concrete Symbiflow input files for the C2 theorems: a chipdb and one
placement-constraint file. -/
def wC2Files : List InputFile := [⟨"chip.bba", "bba"⟩, ⟨"c.xdc", "xdc"⟩]


/-- Concrete Symbiflow options for the C10 theorem: the fpga_interchange
architecture with valid part and package. -/
def wC10O : SymOpts :=
  { arch := some "fpga_interchange", package := some "clg400-1", part := some "xc7a50t" }


/-- Parameterized Symbiflow options for the C9 theorem (nextpnr path). -/
def wC9NpO (p : String) : SymOpts :=
  { arch := some "xilinx", package := some "clg400-1", part := some p }

/-- Parameterized Symbiflow options for the C9 theorem (vpr path). -/
def wC9VprO (p : String) : SymOpts :=
  { vendor := some "xilinx", part := some p, package := some "clg400-1" }

/-- Concrete source files for the C9 vpr run. -/
def wC9VprFiles : List InputFile := [⟨"top.v", "verilogSource"⟩]


/-- Parameterized Symbiflow options for the C6 theorems: vendor xilinx,
fasm2bels enabled, with the database-root option left free. -/
def wC6On (p pkg : String) (db : Option String) : SymOpts :=
  { vendor := some "xilinx", part := some p, package := some pkg,
    fasm2bels := true, dbroot := db }


/-- Concrete Symbiflow options for the C5 theorems: the quicklogic vendor
branch of `configure_vpr`. -/
def wC5O : SymOpts :=
  { vendor := some "quicklogic", part := some "ql-eos-s3", package := some "PD64",
    pnr := some "vpr" }

/-- Concrete nextpnr input for the C5 witness. -/
def wC5NpInp : NpInput := { name := "top", arch := "ecp5" }

/-- The successful result of the C5 nextpnr run. -/
def wC5NpR : NpSuccess :=
  (nextpnr_configure wC5NpInp).toOption.getD ⟨[], [], "", ""⟩

/-- The successful result of the C5 quicklogic run. -/
def wC5QlR : SymSuccess :=
  ((sym_configure_vpr wC5O "top" wC9VprFiles).2).toOption.getD ⟨[], none, ""⟩

/-! ### Helper lemmas about the classification loop -/

theorem npStepCST_unused (st : NpClass) (f : InputFile) (st' : NpClass)
    (h : npStepCST st f = .ok st') : st'.unused_files = st.unused_files := by
  unfold npStepCST at h
  repeat' split at h
  all_goals first
    | exact Except.noConfusion h
    | (injection h with h; subst h; simp)

theorem npStepLPF_unused (st : NpClass) (f : InputFile) (st' : NpClass)
    (h : npStepLPF st f = .ok st') : st'.unused_files = st.unused_files := by
  unfold npStepLPF at h
  repeat' split at h
  all_goals first
    | exact Except.noConfusion h
    | (injection h with h; subst h; simp)

theorem npStepPDC_unused (st : NpClass) (f : InputFile) (st' : NpClass)
    (h : npStepPDC st f = .ok st') : st'.unused_files = st.unused_files := by
  unfold npStepPDC at h
  repeat' split at h
  all_goals first
    | exact Except.noConfusion h
    | (injection h with h; subst h; simp)

theorem npStepPCFXDC_unused (st : NpClass) (f : InputFile) (st' : NpClass)
    (h : npStepPCFXDC st f = .ok st') : st'.unused_files = st.unused_files := by
  unfold npStepPCFXDC at h
  repeat' split at h
  all_goals first
    | exact Except.noConfusion h
    | (injection h with h; subst h; simp)

theorem npStepTail_unused (ii : Bool) (st : NpClass) (f : InputFile)
    (st' : NpClass) (h : npStepTail ii st f = .ok st') :
    st'.unused_files = st.unused_files ++ (if npNotUnused f then [] else [f]) := by
  unfold npStepTail at h
  repeat' split at h
  all_goals first
    | exact Except.noConfusion h
    | (injection h with h; subst h; simp_all [npNotUnused])

theorem npClassifyStep_unused (ii : Bool) (st : NpClass) (f : InputFile)
    (st' : NpClass) (h : npClassifyStep ii st f = .ok st') :
    st'.unused_files = st.unused_files ++ (if npNotUnused f then [] else [f]) := by
  unfold npClassifyStep at h
  simp only [bind, Except.bind] at h
  cases hA : npStepCST st f with
  | error e => simp only [hA] at h; exact Except.noConfusion h
  | ok s1 =>
    simp only [hA] at h
    cases hB : npStepLPF s1 f with
    | error e => simp only [hB] at h; exact Except.noConfusion h
    | ok s2 =>
      simp only [hB] at h
      cases hC : npStepPDC s2 f with
      | error e => simp only [hC] at h; exact Except.noConfusion h
      | ok s3 =>
        simp only [hC] at h
        cases hD : npStepPCFXDC s3 f with
        | error e => simp only [hD] at h; exact Except.noConfusion h
        | ok s4 =>
          simp only [hD] at h
          rw [npStepTail_unused ii s4 f st' h,
            npStepPCFXDC_unused s3 f s4 hD, npStepPDC_unused s2 f s3 hC,
            npStepLPF_unused s1 f s2 hB, npStepCST_unused st f s1 hA]

theorem npClassifyList_unused (ii : Bool) :
    ∀ (files : List InputFile) (st st' : NpClass),
      npClassifyList ii st files = .ok st' →
      st'.unused_files = st.unused_files
        ++ files.filter (fun f => ¬ npNotUnused f) := by
  intro files
  induction files with
  | nil => intro st st' h; simp [npClassifyList] at h; simp [h.symm]
  | cons f fs ih =>
    intro st st' h
    unfold npClassifyList at h
    split at h
    · exact absurd h (by simp)
    · rename_i st1 hstep
      have h1 := npClassifyStep_unused ii st f st1 hstep
      have h2 := ih st1 st' h
      by_cases hf : npNotUnused f
      · simp [hf] at h1
        simp [h2, h1, List.filter_cons, hf]
      · simp [hf] at h1
        simp [h2, h1, List.filter_cons, hf]


/-! ### Claim C1 -/

/-- C1, counterexample: a single CST-tagged file is assigned to the
`cst_file` role slot AND appended to the `unused_files` bucket, so
classification does not send each file to exactly one destination. -/
theorem C1_counterexample :
    ∃ st : NpClass, npClassifyList false {} [⟨"a.cst", "CST"⟩] = .ok st
      ∧ st.cst_file = "a.cst"
      ∧ (⟨"a.cst", "CST"⟩ : InputFile) ∈ st.unused_files :=
  ⟨{ cst_file := "a.cst", unused_files := [⟨"a.cst", "CST"⟩] },
    by decide, by decide, by decide⟩

/-- C1, amended: on every successful classification the unused bucket
holds exactly the files whose tag lies outside
QSF/jsonNetlist/fpgaInterchangeNetlist — so every CST/LPF/PDC/PCF/XDC file
is both assigned to its role slot and re-emitted through the bucket, no
file is lost from the bucket-plus-slots combination except
fpgaInterchangeNetlist files, which (second conjunct) are assigned to no
destination at all: the classification state they leave is the initial
one. -/
theorem C1_amended :
    (∀ (ii : Bool) (files : List InputFile) (st : NpClass),
      npClassifyList ii {} files = .ok st →
      st.unused_files = files.filter (fun f => ¬ npNotUnused f))
    ∧ (∀ n : String,
        npClassifyList true {} [⟨n, "fpgaInterchangeNetlist"⟩] = .ok {}) := by
  constructor
  · intro ii files st h
    simpa using npClassifyList_unused ii files {} st h
  · intro n
    simp [npClassifyList, npClassifyStep, npStepCST, npStepLPF, npStepPDC,
      npStepPCFXDC, npStepTail, bind, Except.bind]

/-- C1, witness: the amended theorem evaluated on a two-file input. -/
theorem C1_witness :
    w1St.unused_files = w1Files.filter (fun f => ¬ npNotUnused f) :=
  C1_amended.1 false w1Files w1St (by decide)

/-! ### Claim C3 -/

/-- C3, counterexample: two files both tagged for the singular
`fpgaInterchangeNetlist` netlist role classify without any error — the
source never assigns the `netlist` slot in that branch, so the duplicate
check cannot fire. -/
theorem C3_counterexample :
    npClassifyList true {}
      [⟨"a.netlist", "fpgaInterchangeNetlist"⟩,
       ⟨"b.netlist", "fpgaInterchangeNetlist"⟩] = .ok {} := by decide

/-- C3, amended: for the CST/PDC/PCF/XDC/QSF roles a second file of the
same tag does raise a duplicate error naming both file names, in supply
order (first conjunct); for LPF an error is raised but its message formats
the (empty) PCF slot instead of the first LPF file name (second conjunct);
for jsonNetlist under a non-interchange architecture the duplicate error
names both (third conjunct); and Symbiflow's scan loop never raises for
duplicated singular roles — the last file silently wins (fourth
conjunct). -/
theorem C3_amended :
    (∀ t : String,
      (t = "CST" ∨ t = "PDC" ∨ t = "PCF" ∨ t = "XDC" ∨ t = "QSF") →
      ∀ (n1 n2 : String) (ii : Bool), n1 ≠ "" →
      npClassifyList ii {} [⟨n1, t⟩, ⟨n2, t⟩]
        = .error (.runtimeError (npDupMsg t n1 n2)))
    ∧ (∀ n1 n2 : String, n1 ≠ "" → ∀ ii : Bool,
        npClassifyList ii {} [⟨n1, "LPF"⟩, ⟨n2, "LPF"⟩]
          = .error (.runtimeError
              ("Nextpnr only supports one LPF file. Found " ++ "" ++ " and " ++ n2)))
    ∧ (∀ n1 n2 : String, n1 ≠ "" →
        npClassifyList false {} [⟨n1, "jsonNetlist"⟩, ⟨n2, "jsonNetlist"⟩]
          = .error (.runtimeError
              ("Nextpnr only supports one netlist. Found " ++ n1 ++ " and " ++ n2)))
    ∧ (∀ n1 n2 : String,
        symNpScan [⟨n1, "bba"⟩, ⟨n2, "bba"⟩] = { chipdb := some n2 }) := by
  refine ⟨?_, ?_, ?_, ?_⟩
  · intro t hmem n1 n2 ii hne
    rcases hmem with h | h | h | h | h <;> subst h <;>
      simp [npClassifyList, npClassifyStep, npStepCST, npStepLPF, npStepPDC,
        npStepPCFXDC, npStepTail, bind, Except.bind, hne, npDupMsg]
  · intro n1 n2 hne ii
    simp [npClassifyList, npClassifyStep, npStepCST, npStepLPF, npStepPDC,
      npStepPCFXDC, npStepTail, bind, Except.bind, hne]
  · intro n1 n2 hne
    simp [npClassifyList, npClassifyStep, npStepCST, npStepLPF, npStepPDC,
      npStepPCFXDC, npStepTail, bind, Except.bind, hne]
  · intro n1 n2
    simp [symNpScan, symNpScanList, symNpScanStep]

/-- C3, witness: the amended theorem evaluated at concrete duplicate CST
and LPF pairs. -/
theorem C3_witness :
    npClassifyList false {} [⟨"a.cst", "CST"⟩, ⟨"b.cst", "CST"⟩]
      = .error (.runtimeError (npDupMsg "CST" "a.cst" "b.cst"))
    ∧ npClassifyList false {} [⟨"a.lpf", "LPF"⟩, ⟨"b.lpf", "LPF"⟩]
      = .error (.runtimeError
          ("Nextpnr only supports one LPF file. Found " ++ "" ++ " and " ++ "b.lpf")) :=
  ⟨C3_amended.1 "CST" (Or.inl rfl) "a.cst" "b.cst" false (by decide),
   C3_amended.2.1 "a.lpf" "b.lpf" (by decide) false⟩

/-! ### Generic helper lemmas -/

theorem anyNone_mapSome (l : List String) :
    (l.map (fun s => some s)).any (fun t => t.isNone) = false := by
  induction l with
  | nil => rfl
  | cons x xs ih => simp [ih]

theorem npStepTail_json_error (st : NpClass) (f : InputFile)
    (hf : f.file_type = "jsonNetlist") :
    ∀ st1, npStepTail true st f ≠ .ok st1 := by
  intro st1
  unfold npStepTail
  by_cases hn : st.netlist = "" <;> simp [hf, hn]

theorem npStepTail_fpgaic_error (st : NpClass) (f : InputFile)
    (hf : f.file_type = "fpgaInterchangeNetlist") :
    ∀ st1, npStepTail false st f ≠ .ok st1 := by
  intro st1
  unfold npStepTail
  by_cases hn : st.netlist = "" <;> simp [hf, hn]

theorem npClassifyStep_ok_tail (ii : Bool) (st : NpClass) (f : InputFile)
    (st1 : NpClass) (h : npClassifyStep ii st f = .ok st1) :
    ∃ s4, npStepTail ii s4 f = .ok st1 := by
  unfold npClassifyStep at h
  simp only [bind, Except.bind] at h
  cases hA : npStepCST st f with
  | error e => simp only [hA] at h; exact Except.noConfusion h
  | ok s1 =>
    simp only [hA] at h
    cases hB : npStepLPF s1 f with
    | error e => simp only [hB] at h; exact Except.noConfusion h
    | ok s2 =>
      simp only [hB] at h
      cases hC : npStepPDC s2 f with
      | error e => simp only [hC] at h; exact Except.noConfusion h
      | ok s3 =>
        simp only [hC] at h
        cases hD : npStepPCFXDC s3 f with
        | error e => simp only [hD] at h; exact Except.noConfusion h
        | ok s4 => simp only [hD] at h; exact ⟨s4, h⟩

theorem npClassifyList_error_of_bad (ii : Bool) (bad : InputFile → Prop)
    (hbad : ∀ st f, bad f → ∀ st1, npStepTail ii st f ≠ .ok st1) :
    ∀ (fs : List InputFile) (st : NpClass), (∃ f ∈ fs, bad f) →
      ∃ e, npClassifyList ii st fs = .error e := by
  intro fs
  induction fs with
  | nil => intro st h; simp at h
  | cons f fs ih =>
    intro st hmem
    unfold npClassifyList
    cases hstep : npClassifyStep ii st f with
    | error e => exact ⟨e, rfl⟩
    | ok st1 =>
      rcases hmem with ⟨g, hg, hbadg⟩
      rcases List.mem_cons.mp hg with hgf | hgfs
      · subst hgf
        obtain ⟨s4, hs4⟩ := npClassifyStep_ok_tail ii st g st1 hstep
        exact absurd hs4 (hbad s4 g hbadg st1)
      · exact ih st1 ⟨g, hgfs, hbadg⟩


theorem some_beq_some (x y : String) : ((some x == some y) : Bool) = (x == y) := rfl
/-! ### Claim C4 -/

/-- C4, counterexample: `Nextpnr.configure_main` does not reject an
architecture outside its known variants — configuration with arch
"notanarch" succeeds (taking the default ice40-style branch) — and
`Symbiflow.configure_main` merely logs an unsupported `pnr` value and
returns normally instead of raising. -/
theorem C4_counterexample :
    (nextpnr_configure { name := "top", arch := "notanarch" }).isOk = true
    ∧ sym_configure_main { pnr := some "quartus" } "top" "top" [] []
        = (["Unsupported PnR tool: quartus"], .ok none) :=
  ⟨by decide, by decide⟩

/-- C4, amended: for a `pnr` value outside nextpnr/vtr/vpr,
`Symbiflow.configure_main` logs "Unsupported PnR tool" and returns with no
error raised and no build file written; `Nextpnr.configure_main` accepts
any arch outside its five named variants and proceeds down the default
(ice40-style) branch, producing a `.asc` default target. -/
theorem C4_amended :
    (∀ (o : SymOpts) (name toplevel : String) (src : List InputFile)
        (ycmds : List Stage),
      (o.pnr == some "nextpnr") = false → (o.pnr == some "vtr") = false →
      (o.pnr == some "vpr") = false →
      sym_configure_main o name toplevel src ycmds
        = (["Unsupported PnR tool: " ++ pyStr o.pnr], .ok none))
    ∧ (∀ (inp : NpInput) (r : NpSuccess),
        inp.arch ≠ "ecp5" → inp.arch ≠ "mistral" → inp.arch ≠ "nexus" →
        inp.arch ≠ "gowin" → inp.arch ≠ "fpga_interchange" →
        nextpnr_configure inp = .ok r →
        r.default_target = inp.name ++ ".asc") := by
  constructor
  · intro o name toplevel src ycmds h1 h2 h3
    simp [sym_configure_main, h1, h2, h3]
  · intro inp r h1 h2 h3 h4 h5 hok
    unfold nextpnr_configure at hok
    simp only [bind, Except.bind, h5, beq_iff_eq, if_false, reduceIte] at hok
    rw [if_neg (by simp)] at hok
    cases hcl : npClassifyList (inp.arch == "fpga_interchange") {} inp.files with
    | error e => simp only [hcl] at hok; exact Except.noConfusion hok
    | ok v =>
      simp only [hcl] at hok
      have harch : npArchBranch inp v = .ok ([], inp.name ++ ".asc",
          (if v.pcf_file ≠ "" then ["--pcf", v.pcf_file] else []),
          ["--asc", inp.name ++ ".asc"]) := by
        simp [npArchBranch, h1, h2, h3, h4, h5]
      simp only [harch] at hok
      cases hp : inp.package with
      | none =>
        simp only [hp, EdaCommands.write, EdaCommands.add, EdaCommands.set_default_target,
          Stage.hasNoneToken, List.any_cons, List.any_nil, List.any_append,
          anyNone_mapSome, List.append_nil, List.nil_append, Option.isNone_some,
          Bool.or_false, Bool.false_or, pure, Except.pure, reduceIte] at hok
        cases hok
        rfl
      | some p =>
        simp only [hp, EdaCommands.write, EdaCommands.add, EdaCommands.set_default_target,
          Stage.hasNoneToken, List.any_cons, List.any_nil, List.any_append,
          anyNone_mapSome, List.append_nil, List.nil_append, Option.isNone_some,
          Bool.or_false, Bool.false_or, pure, Except.pure, reduceIte] at hok
        cases hok
        rfl

set_option maxRecDepth 4096 in
/-- C4, witness: the amended theorem evaluated at `pnr = "quartus"` and at
a nextpnr run with the unknown arch "notanarch". -/
theorem C4_witness :
    sym_configure_main { pnr := some "quartus" } "top" "top" [] []
      = (["Unsupported PnR tool: " ++ pyStr (some "quartus")], .ok none)
    ∧ wC4R.default_target = "top" ++ ".asc" :=
  ⟨C4_amended.1 { pnr := some "quartus" } "top" "top" [] []
      (by decide) (by decide) (by decide),
   C4_amended.2 { name := "top", arch := "notanarch" } wC4R
      (by decide) (by decide) (by decide) (by decide) (by decide) (by decide)⟩

/-! ### Claim C7 -/

/-- C7, counterexample: with the `part` option absent,
`Symbiflow.configure_nextpnr` does not fail with a missing-option error
naming the key — it logs the message and then aborts with an unnamed
`TypeError` when `part` is used in `family in part`. -/
theorem C7_counterexample :
    sym_configure_nextpnr { arch := some "xilinx", package := some "clg400-1" }
        "top" "top" [⟨"chip.bba", "bba"⟩, ⟨"c.xdc", "xdc"⟩] []
      = (["Missing required \x22part\x22 parameter"], .error .typeError) := by
  decide

/-- C7, amended: the nextpnr-mistral/nexus/gowin variants do raise a
`RuntimeError` naming the absent `device` key (first three conjuncts,
assuming classification of the input files succeeds); Symbiflow instead
logs a message naming the missing `part`/`package` key and then aborts
with an unnamed `TypeError` at the first string operation on the `None`
value (last two conjuncts). -/
theorem C7_amended :
    (∀ (inp : NpInput) (st : NpClass), inp.arch = "mistral" → inp.device = none →
      npClassifyList false {} inp.files = .ok st →
      nextpnr_configure inp = .error (.runtimeError
        "Missing required option \x27device\x27 for nextpnr-mistral"))
    ∧ (∀ (inp : NpInput) (st : NpClass), inp.arch = "nexus" → inp.device = none →
      npClassifyList false {} inp.files = .ok st →
      nextpnr_configure inp = .error (.runtimeError
        "Missing required option \x27device\x27 for nextpnr-nexus"))
    ∧ (∀ (inp : NpInput) (st : NpClass), inp.arch = "gowin" → inp.device = none →
      npClassifyList false {} inp.files = .ok st →
      nextpnr_configure inp = .error (.runtimeError
        "Missing required option \x27device\x27 for nextpnr-gowin"))
    ∧ (∀ (o : SymOpts) (name toplevel : String) (src : List InputFile)
        (ycmds : List Stage), o.part = none →
        (sym_configure_nextpnr o name toplevel src ycmds).2 = .error .typeError
        ∧ "Missing required \x22part\x22 parameter"
            ∈ (sym_configure_nextpnr o name toplevel src ycmds).1)
    ∧ (∀ (o : SymOpts) (name toplevel : String) (src : List InputFile)
        (ycmds : List Stage) (p : String), o.part = some p → o.package = none →
        (sym_configure_nextpnr o name toplevel src ycmds).2 = .error .typeError
        ∧ "Missing required \x22package\x22 parameter"
            ∈ (sym_configure_nextpnr o name toplevel src ycmds).1) := by
  refine ⟨?_, ?_, ?_, ?_, ?_⟩
  · intro inp st h6 hdev hcl
    unfold nextpnr_configure
    have hb : (("mistral" : String) == "fpga_interchange") = false := by decide
    simp only [bind, Except.bind, h6, hb, Bool.false_eq_true, false_and,
      if_false, reduceIte]
    simp only [hcl]
    simp [npArchBranch, h6, hdev]
  · intro inp st h6 hdev hcl
    unfold nextpnr_configure
    have hb : (("nexus" : String) == "fpga_interchange") = false := by decide
    simp only [bind, Except.bind, h6, hb, Bool.false_eq_true, false_and,
      if_false, reduceIte]
    simp only [hcl]
    simp [npArchBranch, h6, hdev]
  · intro inp st h6 hdev hcl
    unfold nextpnr_configure
    have hb : (("gowin" : String) == "fpga_interchange") = false := by decide
    simp only [bind, Except.bind, h6, hb, Bool.false_eq_true, false_and,
      if_false, reduceIte]
    simp only [hcl]
    simp [npArchBranch, h6, hdev]
  · intro o name tl src y hp
    unfold sym_configure_nextpnr
    simp only [hp]
    exact ⟨trivial, by simp [symNpLog1, hp, truthy]⟩
  · intro o name tl src y p hp hpkg
    unfold sym_configure_nextpnr
    simp only [hp, hpkg]
    exact ⟨trivial, by simp [symNpLog1, hpkg, truthy]⟩

/-- C7, witness: the amended theorem evaluated at a device-less mistral
input and at a part-less Symbiflow input. -/
theorem C7_witness :
    nextpnr_configure { name := "top", arch := "mistral" }
      = .error (.runtimeError "Missing required option \x27device\x27 for nextpnr-mistral")
    ∧ (sym_configure_nextpnr {} "top" "top" [] []).2 = .error .typeError :=
  ⟨C7_amended.1 { name := "top", arch := "mistral" } {} rfl rfl (by decide),
   (C7_amended.2.2.2.1 {} "top" "top" [] [] rfl).1⟩

/-! ### Claim C8 -/

/-- C8: a JSON netlist under the fpga_interchange architecture, and an
fpga-interchange netlist under any other architecture, always make
`Nextpnr.configure_main` fail (first two conjuncts); the raised message
names the offending file together with both netlist formats involved
(third conjunct, evaluated where the mismatch is the first fault). -/
theorem C8_netlist_mismatch :
    (∀ inp : NpInput, inp.arch = "fpga_interchange" →
      (∃ f ∈ inp.files, f.file_type = "jsonNetlist") →
      ∃ e, nextpnr_configure inp = .error e)
    ∧ (∀ inp : NpInput, inp.arch ≠ "fpga_interchange" →
      (∃ f ∈ inp.files, f.file_type = "fpgaInterchangeNetlist") →
      ∃ e, nextpnr_configure inp = .error e)
    ∧ (∀ n : String,
        npClassifyList true {} [⟨n, "jsonNetlist"⟩]
          = .error (.runtimeError
            ("Nextpnr-fpga_interchange requires fpga-interchange logical netlist instead of JSON, found" ++ n))
        ∧ npClassifyList false {} [⟨n, "fpgaInterchangeNetlist"⟩]
          = .error (.runtimeError
            ("Non-interchange variants of Nextpnr require JSON netlist, found" ++ n))) := by
  refine ⟨?_, ?_, ?_⟩
  · intro inp harch hmem
    unfold nextpnr_configure
    have hb : (("fpga_interchange" : String) == "fpga_interchange") = true := by decide
    simp only [bind, Except.bind, harch, hb]
    by_cases hc : inp.chipdb = none
    · exact ⟨_, by rw [if_pos ⟨by trivial, hc⟩]⟩
    · rw [if_neg (fun hand => hc hand.2)]
      obtain ⟨e, he⟩ := npClassifyList_error_of_bad true
        (fun f => f.file_type = "jsonNetlist")
        (fun st f hf st1 => npStepTail_json_error st f hf st1)
        inp.files {} hmem
      exact ⟨e, by simp only [he]⟩
  · intro inp harch hmem
    unfold nextpnr_configure
    have hb : (inp.arch == "fpga_interchange") = false :=
      beq_eq_false_iff_ne.mpr harch
    simp only [bind, Except.bind, hb, Bool.false_eq_true, false_and,
      if_false, reduceIte]
    obtain ⟨e, he⟩ := npClassifyList_error_of_bad false
      (fun f => f.file_type = "fpgaInterchangeNetlist")
      (fun st f hf st1 => npStepTail_fpgaic_error st f hf st1)
      inp.files {} hmem
    exact ⟨e, by simp only [he]⟩
  · intro n
    constructor <;>
      simp [npClassifyList, npClassifyStep, npStepCST, npStepLPF, npStepPDC,
        npStepPCFXDC, npStepTail, bind, Except.bind]

/-- C8, witness: the mismatch theorem evaluated at concrete inputs on both
sides (JSON netlist under fpga_interchange; interchange netlist under
ice40). -/
theorem C8_witness :
    (∃ e, nextpnr_configure wC8a = .error e)
    ∧ (∃ e, nextpnr_configure wC8b = .error e) :=
  ⟨C8_netlist_mismatch.1 wC8a rfl ⟨⟨"n.json", "jsonNetlist"⟩, by decide, rfl⟩,
   C8_netlist_mismatch.2.1 wC8b (by decide)
     ⟨⟨"n.netlist", "fpgaInterchangeNetlist"⟩, by decide, rfl⟩⟩

/-! ### Claim C2 -/

/-- C2, counterexample: an invalid `arch` value in
`Symbiflow.configure_nextpnr` — a required-condition violation — is only
logged, and graph construction continues all the way to a successful
Makefile write. -/
theorem C2_counterexample :
    (sym_configure_nextpnr wC2O "top" "top" wC2Files []).1
      = ["Missing or invalid \x22arch\x22 parameter: bogus in \x22tool_options\x22"]
    ∧ (sym_configure_nextpnr wC2O "top" "top" wC2Files []).2.isOk = true :=
  ⟨by decide, by decide⟩

/-- C2, amended: `Nextpnr.configure_main` does abort synchronously before
any write on its required-condition violations (first conjunct: the
missing-chipdb check raises immediately); but `Symbiflow`'s
required-condition checks are downgraded to `logger.error` messages and
construction continues to the file write — for every invalid architecture
string the run both logs and completes successfully (second conjunct). -/
theorem C2_amended :
    (∀ inp : NpInput, inp.arch = "fpga_interchange" → inp.chipdb = none →
      nextpnr_configure inp = .error (.runtimeError
        "Nextpnr-fpga_interchange require chipdb to be specified."))
    ∧ (∀ a : String, (a == "xilinx") = false → (a == "fpga_interchange") = false →
        (sym_configure_nextpnr { wC2O with arch := some a } "top" "top" wC2Files []).1 ≠ []
        ∧ (sym_configure_nextpnr { wC2O with arch := some a }
            "top" "top" wC2Files []).2.isOk = true) := by
  constructor
  · intro inp harch hchip
    unfold nextpnr_configure
    rw [if_pos ⟨by simp [harch], hchip⟩]
  · intro a h1 h2
    have hx7 : pyIn "xc7" "xc7a50t" = true := by decide
    have hxa : pyIn "xc7a" "xc7a50t" = true := by decide
    have hxz : pyIn "xc7z" "xc7a50t" = false := by decide
    have hxk : pyIn "xc7k" "xc7a50t" = false := by decide
    constructor <;>
      (simp [sym_configure_nextpnr, symNpLog1, symNpLog2, symNpLog3, wC2O, wC2Files,
        symNpScan, symNpScanList, symNpScanStep, symNpCommon, symFinishWrite,
        EdaCommands.write, EdaCommands.add, EdaCommands.set_default_target,
        Stage.hasNoneToken, truthy, some_beq_some, h1, h2, hx7, hxa, hxz, hxk];
       try rfl)

/-- C2, witness: the amended theorem evaluated at a chipdb-less
fpga_interchange nextpnr input and at the arch value "bogus". -/
theorem C2_witness :
    nextpnr_configure { name := "top", arch := "fpga_interchange" }
      = .error (.runtimeError "Nextpnr-fpga_interchange require chipdb to be specified.")
    ∧ ((sym_configure_nextpnr { wC2O with arch := some "bogus" }
          "top" "top" wC2Files []).1 ≠ []
       ∧ (sym_configure_nextpnr { wC2O with arch := some "bogus" }
          "top" "top" wC2Files []).2.isOk = true) :=
  ⟨C2_amended.1 { name := "top", arch := "fpga_interchange" } rfl rfl,
   C2_amended.2 "bogus" (by decide) (by decide)⟩

/-! ### Helper lemmas about the Symbiflow scan and builder -/

theorem symNpScanStep_placement (st : SymNpScan) (f : InputFile) :
    (symNpScanStep st f).placement_constraints
      = st.placement_constraints ++ (if f.file_type == "xdc" then [f.name] else []) := by
  unfold symNpScanStep
  repeat' split <;> try simp_all

theorem symNpScanList_placement :
    ∀ (fs : List InputFile) (st : SymNpScan),
      (symNpScanList st fs).placement_constraints
        = st.placement_constraints
          ++ (fs.filter (fun f => f.file_type == "xdc")).map (fun f => f.name) := by
  intro fs
  induction fs with
  | nil => intro st; simp [symNpScanList]
  | cons f fs ih =>
    intro st
    unfold symNpScanList
    rw [ih (symNpScanStep st f), symNpScanStep_placement]
    by_cases hf : f.file_type == "xdc" <;> simp_all [List.filter_cons]

theorem foldlXdc_length :
    ∀ (l acc : List String),
      (l.foldl (fun a x => a ++ ["--xdc", x]) acc).length = acc.length + 2 * l.length := by
  intro l
  induction l with
  | nil => intro acc; simp
  | cons x xs ih =>
    intro acc
    rw [List.foldl_cons, ih]
    simp
    omega

theorem write_ne_assertion (c : EdaCommands) :
    c.write ≠ .error .assertionError := by
  unfold EdaCommands.write
  split <;> simp

theorem symFinishWrite_ne_assertion (c : EdaCommands) :
    symFinishWrite c ≠ .error .assertionError := by
  unfold symFinishWrite
  cases hw : c.write with
  | error e =>
    have h := write_ne_assertion c
    rw [hw] at h
    simpa using h
  | ok t => simp

theorem symNpCommon_ne_assertion (o : SymOpts) (name toplevel partname : String)
    (bd : Option String) (scan : SymNpScan) (cmds : EdaCommands) :
    (symNpCommon o name toplevel partname bd scan cmds).2 ≠ .error .assertionError := by
  unfold symNpCommon
  repeat' split
  all_goals simp [symFinishWrite_ne_assertion]

/-! ### Claim C10 -/

/-- C10: under the fpga_interchange architecture (with part and package
present, so execution reaches the assertion), `Symbiflow.configure_nextpnr`
aborts with an `AssertionError` — never a named configuration error —
exactly when the number of supplied XDC-typed placement-constraint files is
different from one: `xdcs` holds two tokens per XDC file, so
`len(xdcs) == 2` holds iff exactly one XDC file was supplied. -/
theorem C10_xdc_assertion :
    ∀ src : List InputFile,
      ((sym_configure_nextpnr wC10O "top" "top" src []).2 = .error .assertionError)
      ↔ (src.filter (fun f => f.file_type == "xdc")).length ≠ 1 := by
  intro src
  have hplace : (symNpScan src).placement_constraints
      = (src.filter (fun f => f.file_type == "xdc")).map (fun f => f.name) := by
    simpa using symNpScanList_placement src {}
  have hlen : ((symNpScan src).placement_constraints.foldl
      (fun a x => a ++ ["--xdc", x]) []).length
      = 2 * (src.filter (fun f => f.file_type == "xdc")).length := by
    rw [foldlXdc_length, hplace]
    simp
  have hx7 : pyIn "xc7" "xc7a50t" = true := by decide
  have hxa : pyIn "xc7a" "xc7a50t" = true := by decide
  have hxz : pyIn "xc7z" "xc7a50t" = false := by decide
  have hxk : pyIn "xc7k" "xc7a50t" = false := by decide
  have hic : ((some "fpga_interchange" : Option String) == some "fpga_interchange") = true := by
    decide
  unfold sym_configure_nextpnr
  simp only [wC10O, hx7, hxa, hxz, hxk, hic, Option.getD, if_true, reduceIte]
  rw [hlen]
  by_cases hcount : (src.filter (fun f => f.file_type == "xdc")).length = 1
  · rw [if_neg (by omega)]
    constructor
    · intro hr
      exact absurd hr (symNpCommon_ne_assertion _ _ _ _ _ _ _)
    · intro hne
      exact absurd hcount hne
  · rw [if_pos (by omega)]
    simp [hcount]

/-! ### Claim C9 -/

/-- C9: on the xilinx bitstream path (both in `configure_nextpnr` with
arch "xilinx" and in `configure_vpr` with vendor "xilinx", other required
inputs present), the run ends in an uncaught `NameError` on
`bitstream_device` exactly when the part string contains none of "xc7a",
"xc7z", "xc7k"; when one of the substrings is present the run instead
completes successfully — the local is assigned by one of the three `if`
statements and its use is well-defined. -/
theorem C9_bitstream_device :
    ∀ p : String,
      (((sym_configure_nextpnr (wC9NpO p) "top" "top" wC2Files []).2
          = .error (.nameError "bitstream_device"))
        ↔ ¬(pyIn "xc7a" p = true ∨ pyIn "xc7z" p = true ∨ pyIn "xc7k" p = true))
      ∧ ((sym_configure_nextpnr (wC9NpO p) "top" "top" wC2Files []).2.isOk = true
          ↔ (pyIn "xc7a" p = true ∨ pyIn "xc7z" p = true ∨ pyIn "xc7k" p = true))
      ∧ (((sym_configure_vpr (wC9VprO p) "top" wC9VprFiles).2
          = .error (.nameError "bitstream_device"))
          ↔ ¬(pyIn "xc7a" p = true ∨ pyIn "xc7z" p = true ∨ pyIn "xc7k" p = true))
      ∧ ((sym_configure_vpr (wC9VprO p) "top" wC9VprFiles).2.isOk = true
          ↔ (pyIn "xc7a" p = true ∨ pyIn "xc7z" p = true ∨ pyIn "xc7k" p = true)) := by
  intro p
  cases h1 : pyIn "xc7a" p <;> cases h2 : pyIn "xc7z" p <;> cases h3 : pyIn "xc7k" p <;>
    refine ⟨?_, ?_, ?_, ?_⟩ <;>
    (simp [wC9NpO, wC9VprO, wC9VprFiles, wC2Files, sym_configure_nextpnr, sym_configure_vpr,
      symVprVendorBranch, symNpScan, symNpScanList, symNpScanStep,
      symVprScan, symVprScanList, symVprScanStep, symVprTail,
      symNpCommon, symFinishWrite, EdaCommands.write, EdaCommands.add, EdaCommands.add_var,
      EdaCommands.set_default_target, Stage.hasNoneToken, truthy, some_beq_some,
      h1, h2, h3];
     try rfl)

/-! ### Claim C6 -/

/-- C6, counterexample: with fasm2bels enabled and its required inputs
absent (no RRGraph/VPRGrid file, no dbroot option), `Symbiflow.configure_vpr`
does not raise a missing-option error: it logs the message (twice — the
validation block is duplicated in the source) and later aborts with an
unnamed `TypeError` at `dbroot + f"/{bitstream_device}"`. -/
theorem C6_counterexample :
    sym_configure_vpr (wC6On "xc7a50t" "clg400-1" none) "top" wC9VprFiles
      = ([fasm2belsMissingMsg, fasm2belsMissingMsg], .error .typeError) := by
  decide

set_option maxHeartbeats 2000000 in
/-- C6, amended: enabling fasm2bels while one of its required inputs
(rr_graph file, vpr_grid file, dbroot option) is absent makes
`Symbiflow.configure_vpr` log the missing-input message — execution
continues past the check instead of raising a missing-option error (first
conjunct); with fasm2bels disabled that message is never logged, whatever
else is missing (second conjunct), and the disabled twin of the
counterexample configuration succeeds outright (third conjunct). -/
theorem C6_amended :
    (∀ (p pkg tl : String) (db : Option String) (src : List InputFile),
      ((symVprScan src).rr_graph = none ∨ (symVprScan src).vpr_grid = none ∨ db = none) →
      fasm2belsMissingMsg ∈ (sym_configure_vpr (wC6On p pkg db) tl src).1)
    ∧ (∀ (o : SymOpts) (tl : String) (src : List InputFile), o.fasm2bels = false →
        fasm2belsMissingMsg ∉ (sym_configure_vpr o tl src).1)
    ∧ (sym_configure_vpr { wC6On "xc7a50t" "clg400-1" none with fasm2bels := false }
        "top" wC9VprFiles).2.isOk = true := by
  refine ⟨?_, ?_, by decide⟩
  · intro p pkg tl db src hcond
    have hxil : ((some "xilinx" : Option String) == some "xilinx") = true := by decide
    unfold sym_configure_vpr
    simp only [wC6On, symVprVendorBranch, hxil, some_beq_some, if_true, reduceIte,
      symVprFasmLog, if_pos hcond]
    repeat' split
    all_goals simp_all [List.mem_append]
  · intro o tl src hf
    have h1 : fasm2belsMissingMsg ∉ symVprLog1 src := by
      unfold symVprLog1
      split <;> simp [fasm2belsMissingMsg]
    have h2 : fasm2belsMissingMsg ∉ symVprLog2 o := by
      unfold symVprLog2
      split <;> split <;> simp [fasm2belsMissingMsg]
    unfold sym_configure_vpr
    simp only [hf, symVprFasmLog, Bool.false_eq_true, false_and, if_false, reduceIte,
      List.append_nil]
    repeat' split
    all_goals simp_all [List.mem_append]

/-- C6, witness: the amended theorem evaluated with dbroot absent and
fasm2bels enabled, and with fasm2bels disabled. -/
theorem C6_witness :
    fasm2belsMissingMsg
      ∈ (sym_configure_vpr (wC6On "xc7a50t" "clg400-1" none) "top" wC9VprFiles).1
    ∧ fasm2belsMissingMsg
      ∉ (sym_configure_vpr { wC6On "xc7a50t" "clg400-1" none with fasm2bels := false }
          "top" wC9VprFiles).1 :=
  ⟨C6_amended.1 "xc7a50t" "clg400-1" "top" none wC9VprFiles (Or.inr (Or.inr rfl)),
   C6_amended.2.1 { wC6On "xc7a50t" "clg400-1" none with fasm2bels := false }
     "top" wC9VprFiles rfl⟩

/-! ### Helper lemmas about successful configure runs (claim C5) -/

theorem symFinishWrite_ok (c : EdaCommands) (r : SymSuccess)
    (h : symFinishWrite c = .ok r) :
    r.commands = c.commands ∧ r.default_target = c.default_target := by
  unfold symFinishWrite at h
  split at h
  · exact Except.noConfusion h
  · injection h with h
    subst h
    exact ⟨rfl, rfl⟩

theorem symNpCommon_ok (o : SymOpts) (name toplevel partname : String)
    (bd : Option String) (scan : SymNpScan) (cmds : EdaCommands)
    (l : List String) (r : SymSuccess)
    (h : symNpCommon o name toplevel partname bd scan cmds = (l, .ok r)) :
    ∃ s ∈ r.commands, ∃ d, r.default_target = some d ∧ d ∈ s.targets := by
  unfold symNpCommon at h
  repeat' split at h
  all_goals first
    | { injection h with h1 h2
        obtain ⟨hc, hd⟩ := symFinishWrite_ok _ r h2
        rw [hc, hd]
        simp only [EdaCommands.set_default_target, EdaCommands.add]
        exact ⟨_, List.mem_append_right _ (List.mem_singleton_self _), _, rfl, by simp⟩ }
    | simp at h

theorem symNpCommon_ok2 (o : SymOpts) (name toplevel partname : String)
    (bd : Option String) (scan : SymNpScan) (cmds : EdaCommands) (r : SymSuccess)
    (h : (symNpCommon o name toplevel partname bd scan cmds).2 = .ok r) :
    ∃ s ∈ r.commands, ∃ d, r.default_target = some d ∧ d ∈ s.targets :=
  symNpCommon_ok o name toplevel partname bd scan cmds
    (symNpCommon o name toplevel partname bd scan cmds).1 r (by rw [← h])

theorem sym_configure_nextpnr_default (o : SymOpts) (name toplevel : String)
    (src : List InputFile) (y : List Stage) (r : SymSuccess)
    (h : (sym_configure_nextpnr o name toplevel src y).2 = .ok r) :
    ∃ s ∈ r.commands, ∃ d, r.default_target = some d ∧ d ∈ s.targets := by
  unfold sym_configure_nextpnr at h
  repeat' split at h
  all_goals try simp at h
  all_goals repeat' split at h
  all_goals first
    | { exact symNpCommon_ok2 _ _ _ _ _ _ _ _ h }
    | simp at h

theorem symVprTail_nq_ok (o : SymOpts) (tl : String) (cmds : EdaCommands)
    (targets : String) (r : SymSuccess)
    (hv : (o.vendor == some "quicklogic") = false)
    (h : symVprTail o tl cmds targets = .ok r) :
    r.commands = cmds.commands ∧ r.default_target = some targets := by
  unfold symVprTail at h
  rw [hv] at h
  simp only [Bool.false_eq_true, if_false, reduceIte] at h
  obtain ⟨hc, hd⟩ := symFinishWrite_ok _ _ h
  exact ⟨by simpa [EdaCommands.set_default_target] using hc,
    by simpa [EdaCommands.set_default_target] using hd⟩

theorem symVprTail_ql_ok (o : SymOpts) (tl : String) (cmds : EdaCommands)
    (targets : String) (r : SymSuccess) (hv : o.vendor = some "quicklogic")
    (h : symVprTail o tl cmds targets = .ok r) :
    r.default_target
      = some (tl ++ ".bin" ++ " " ++ tl ++ ".h" ++ " " ++ tl ++ ".openocd.cfg")
    ∧ isStageOutput r.commands (tl ++ ".bin")
    ∧ isStageOutput r.commands (tl ++ ".h")
    ∧ isStageOutput r.commands (tl ++ ".openocd.cfg") := by
  unfold symVprTail at h
  rw [if_pos (by simp [hv])] at h
  obtain ⟨hc, hd⟩ := symFinishWrite_ok _ _ h
  rw [hc, hd]
  simp only [EdaCommands.set_default_target, EdaCommands.add]
  refine ⟨trivial,
    ⟨⟨[some "symbiflow_write_binary", some (tl ++ ".bit"), some (tl ++ ".bin")],
      [tl ++ ".bin"], [tl ++ ".bit"]⟩, by simp, by simp⟩,
    ⟨⟨[some "symbiflow_write_bitheader", some (tl ++ ".bit"), some (tl ++ ".h")],
      [tl ++ ".h"], [tl ++ ".bit"]⟩, by simp, by simp⟩,
    ⟨⟨[some "symbiflow_write_openocd", some (tl ++ ".bit"), some (tl ++ ".openocd.cfg")],
      [tl ++ ".openocd.cfg"], [tl ++ ".bit"]⟩, by simp, by simp⟩⟩

theorem nextpnr_configure_default (inp : NpInput) (r : NpSuccess)
    (h : nextpnr_configure inp = .ok r) :
    ∃ s ∈ r.commands, r.default_target ∈ s.targets := by
  unfold nextpnr_configure at h
  simp only [bind, Except.bind] at h
  repeat' split at h
  all_goals first
    | exact Except.noConfusion h
    | { simp only [pure, Except.pure] at h
        injection h with h
        subst h
        exact ⟨_, List.mem_append_left _ (List.mem_append_right _
          (List.mem_singleton_self _)), List.mem_singleton_self _⟩ }

set_option maxHeartbeats 3000000 in
theorem sym_configure_vpr_default_nq (o : SymOpts) (tl : String)
    (src : List InputFile) (r : SymSuccess)
    (hv : (o.vendor == some "quicklogic") = false)
    (h : (sym_configure_vpr o tl src).2 = .ok r) :
    ∃ s ∈ r.commands, ∃ d, r.default_target = some d ∧ d ∈ s.targets := by
  unfold sym_configure_vpr at h
  repeat' split at h
  all_goals try simp at h
  all_goals repeat' split at h
  all_goals first
    | { obtain ⟨hc, hd⟩ := symVprTail_nq_ok _ _ _ _ _ hv h
        rw [hc, hd]
        simp only [EdaCommands.add]
        exact ⟨_, List.mem_append_right _ (List.mem_singleton_self _), _, rfl, by simp⟩ }
    | simp at h

set_option maxHeartbeats 3000000 in
theorem sym_configure_vpr_default_ql (o : SymOpts) (tl : String)
    (src : List InputFile) (r : SymSuccess)
    (hv : o.vendor = some "quicklogic")
    (h : (sym_configure_vpr o tl src).2 = .ok r) :
    r.default_target
      = some (tl ++ ".bin" ++ " " ++ tl ++ ".h" ++ " " ++ tl ++ ".openocd.cfg")
    ∧ isStageOutput r.commands (tl ++ ".bin")
    ∧ isStageOutput r.commands (tl ++ ".h")
    ∧ isStageOutput r.commands (tl ++ ".openocd.cfg") := by
  unfold sym_configure_vpr at h
  repeat' split at h
  all_goals try simp at h
  all_goals repeat' split at h
  all_goals first
    | { exact symVprTail_ql_ok _ _ _ _ _ hv h }
    | simp at h

/-! ### Claim C5 -/

set_option maxRecDepth 8192 in
/-- C5, counterexample: after the quicklogic branch of
`Symbiflow.configure_vpr`, the recorded default target (the space-joined
string "top.bin top.h top.openocd.cfg") is not the output of any single
registered stage. -/
theorem C5_counterexample :
    ((sym_configure_vpr wC5O "top" wC9VprFiles).2).map defaultOutsideStages
      = .ok true := by
  decide

/-- C5, amended: after every complete configuration run the recorded
default target is the output of some single registered stage — in
`Nextpnr.configure_main`, in `Symbiflow.configure_nextpnr`, and in
`Symbiflow.configure_vpr` for every vendor except quicklogic; in the
quicklogic branch the default target is instead the space-joined
concatenation of three stage outputs (`.bin`, `.h`, `.openocd.cfg`), each
of which individually is the output of a registered stage, but the joined
string itself is no stage's output. -/
theorem C5_amended :
    (∀ (inp : NpInput) (r : NpSuccess), nextpnr_configure inp = .ok r →
      ∃ s ∈ r.commands, r.default_target ∈ s.targets)
    ∧ (∀ (o : SymOpts) (name toplevel : String) (src : List InputFile)
        (y : List Stage) (r : SymSuccess),
        (sym_configure_nextpnr o name toplevel src y).2 = .ok r →
        ∃ s ∈ r.commands, ∃ d, r.default_target = some d ∧ d ∈ s.targets)
    ∧ (∀ (o : SymOpts) (tl : String) (src : List InputFile) (r : SymSuccess),
        (o.vendor == some "quicklogic") = false →
        (sym_configure_vpr o tl src).2 = .ok r →
        ∃ s ∈ r.commands, ∃ d, r.default_target = some d ∧ d ∈ s.targets)
    ∧ (∀ (o : SymOpts) (tl : String) (src : List InputFile) (r : SymSuccess),
        o.vendor = some "quicklogic" →
        (sym_configure_vpr o tl src).2 = .ok r →
        r.default_target
          = some (tl ++ ".bin" ++ " " ++ tl ++ ".h" ++ " " ++ tl ++ ".openocd.cfg")
        ∧ isStageOutput r.commands (tl ++ ".bin")
        ∧ isStageOutput r.commands (tl ++ ".h")
        ∧ isStageOutput r.commands (tl ++ ".openocd.cfg")) :=
  ⟨nextpnr_configure_default, sym_configure_nextpnr_default,
   sym_configure_vpr_default_nq, sym_configure_vpr_default_ql⟩

set_option maxRecDepth 8192 in
/-- C5, witness: the amended theorem evaluated at a successful ecp5
nextpnr run and at the successful quicklogic vpr run. -/
theorem C5_witness :
    (∃ s ∈ wC5NpR.commands, wC5NpR.default_target ∈ s.targets)
    ∧ (wC5QlR.default_target
        = some ("top" ++ ".bin" ++ " " ++ "top" ++ ".h" ++ " " ++ "top" ++ ".openocd.cfg")
       ∧ isStageOutput wC5QlR.commands ("top" ++ ".bin")
       ∧ isStageOutput wC5QlR.commands ("top" ++ ".h")
       ∧ isStageOutput wC5QlR.commands ("top" ++ ".openocd.cfg")) :=
  ⟨C5_amended.1 wC5NpInp wC5NpR (by decide),
   C5_amended.2.2.2 wC5O "top" wC9VprFiles wC5QlR rfl (by decide)⟩

end Edalize
